import Mathlib

set_option autoImplicit false
set_option maxHeartbeats 1000000

/- Verification of the Stackdriver Python client (stackdriver/stackapi.py and
   stackdriver/restapi.py).  The code is Python 2; byte strings are modelled
   at the ASCII level (attribute names, endpoints and resource paths are
   ASCII identifiers and URI segments). -/

/-- Python `c.isupper()` for a single ASCII character (C locale). -/
def pyCharIsUpper (c : Char) : Bool := decide (65 ≤ c.toNat ∧ c.toNat ≤ 90)

/-- Python `c.islower()` for a single ASCII character (C locale). -/
def pyCharIsLower (c : Char) : Bool := decide (97 ≤ c.toNat ∧ c.toNat ≤ 122)

/-- A cased character: an ASCII letter. -/
def pyCharIsCased (c : Char) : Bool := pyCharIsUpper c || pyCharIsLower c

/-- Python `s.islower()`: at least one cased character, and no cased
    character is uppercase. -/
def pyStrIsLower (s : String) : Bool :=
  s.data.any pyCharIsCased && s.data.all (fun c => !pyCharIsUpper c)

/-- ASCII lowercasing of one character (Python `str.lower` per byte). -/
def pyLowerChar (c : Char) : Char :=
  if pyCharIsUpper c then Char.ofNat (c.toNat + 32) else c

/-- ASCII uppercasing of one character (Python `str.upper` per byte). -/
def pyUpperChar (c : Char) : Char :=
  if pyCharIsLower c then Char.ofNat (c.toNat - 32) else c

/-- Python `s.lower()`. -/
def pyLower (s : String) : String := String.mk (s.data.map pyLowerChar)

/-- Does the first character list start with the second one? -/
def startsChars : List Char → List Char → Bool
  | _, [] => true
  | [], _ :: _ => false
  | c :: cs, d :: ds => c == d && startsChars cs ds

/-- Python `s.startswith(p)`. -/
def pyStartsWith (s p : String) : Bool := startsChars s.data p.data

/-- Python `needle in hay` for strings: substring test. -/
def containsChars (needle : List Char) : List Char → Bool
  | [] => startsChars [] needle
  | c :: t => startsChars (c :: t) needle || containsChars needle t

/-- Python whitespace, the default strip set of `str.rstrip`. -/
def pyIsSpace (c : Char) : Bool :=
  c == ' ' || c == '\t' || c == '\n' || c == '\r' || c == '\x0b' || c == '\x0c'

/-- Python `s.rstrip()`. -/
def pyRstrip (s : String) : String :=
  String.mk (s.data.reverse.dropWhile pyIsSpace).reverse

/-- Python `s.split('/')` (the single-character separator used by
    `_parse_class_from_resource`); `acc` is the current segment reversed. -/
def splitSlash (acc : List Char) : List Char → List String
  | [] => [String.mk acc.reverse]
  | c :: rest =>
    if c == '/' then String.mk acc.reverse :: splitSlash [] rest
    else splitSlash (c :: acc) rest

/-- Parsed JSON values as handled by the client.  JSON null does not occur on
    the verified API surface and is not modelled; resource paths and ids are
    strings or numbers. -/
inductive JValue where
  | str (s : String)
  | num (n : Int)
  | bool (b : Bool)
  | dict (fields : List (String × JValue))
  | arr (items : List JValue)

/-- Python truthiness of a JSON value. -/
def pyTruthy : JValue → Bool
  | .str s => !s.data.isEmpty
  | .num n => n != 0
  | .bool b => b
  | .dict fields => !fields.isEmpty
  | .arr items => !items.isEmpty

/-- Truthiness of `d.get(k)`-style results: Python `None` (absent) is falsy. -/
def pyTruthyOpt : Option JValue → Bool
  | none => false
  | some v => pyTruthy v

/-- Lookup in a Python dict modelled as an association list (`d.get(k)`). -/
def dictGet {α : Type} : List (String × α) → String → Option α
  | [], _ => none
  | (k2, v) :: rest, k => if k2 = k then some v else dictGet rest k

/-- Python `d[k] = v`: replace the value in place when the key is present,
    append the pair otherwise. -/
def dictSet {α : Type} : List (String × α) → String → α → List (String × α)
  | [], k, v => [(k, v)]
  | (k2, w) :: rest, k, v =>
    if k2 = k then (k2, v) :: rest else (k2, w) :: dictSet rest k v

/-- The merge loops `for key, value in upd.iteritems(): d[key] = value`. -/
def dictMerge {α : Type} (d upd : List (String × α)) : List (String × α) :=
  upd.foldl (fun acc kv => dictSet acc kv.1 kv.2) d

/-- The element-wise wrap loop over a list result, with exceptions
    propagating: build the list of results or stop at the first error. -/
def exceptMap {ε α β : Type} (f : α → Except ε β) : List α → Except ε (List β)
  | [] => .ok []
  | a :: as => do
    let b ← f a
    let bs ← exceptMap f as
    pure (b :: bs)

/-- Python exception classes raised on the verified paths. -/
inductive PyErr where
  | valueError | attributeError | typeError | indexError | runtimeError | keyError
  deriving DecidableEq, Repr

/-- restapi.RestApi configuration as stored by `__init__` (username and
    password are accepted but unused; entrypoint normalisation happens before
    the fields are stored). -/
structure RestApi where
  entrypoint_uri : String
  version : String
  apikey : Option String
  username : Option String
  password : Option String
  useragent : Option String
  deriving DecidableEq, Repr

/-- The `api_version` property. -/
def RestApi.api_version (self : RestApi) : String := self.version

/-- The `entrypoint` property. -/
def RestApi.entrypoint (self : RestApi) : String := self.entrypoint_uri

inductive Verb where
  | get | post | put | delete
  deriving DecidableEq, Repr

/-- One outgoing HTTP call: the verb, the endpoint argument handed to the
    rest client, the JSON body (POST/PUT) and the query params (GET).  The
    merged headers are verified separately on `RestApi.merge_headers`. -/
structure Request where
  verb : Verb
  endpoint : String
  body : Option JValue
  params : Option JValue

abbrev Trace := List Request

abbrev HeaderDict := List (String × String)

/-- The server side: the parsed JSON body obtained for an issued request
    (`requests.<verb>(...).json()` after a passing `raise_for_status`). -/
abbrev Oracle := Request → JValue

/-- stackapi.AnonStackInterface: the identity state set by `__init__`
    (`_rest_class`, `_rest_client`, `_endpoint`). -/
structure AnonStackInterface where
  rest_class : String
  rest_client : RestApi
  endpoint : String
  deriving DecidableEq, Repr

/-- `AnonStackInterface.__init__`: the endpoint is the parent interface's
    endpoint (empty for top level) followed by the lowercased class name and
    a slash. -/
def AnonStackInterface.init (rest_class : String) (client : RestApi)
    (endpoint_pre : String) : AnonStackInterface :=
  { rest_class := rest_class, rest_client := client,
    endpoint := endpoint_pre ++ pyLower rest_class ++ "/" }

/-- `AnonStackInterface._versioned_endpoint` with the client version as an
    explicit argument: `v<version>/<endpoint>`, then `<id>/` when an id is
    given, then `<action>/` when an action is given. -/
def versionedEndpointCore (version endpoint : String) (id action : Option String) : String :=
  let uri := "v" ++ version ++ "/" ++ endpoint
  let uri :=
    match id with
    | none => uri
    | some i => uri ++ i ++ "/"
  match action with
  | none => uri
  | some a => uri ++ a ++ "/"

/-- `AnonStackInterface._versioned_endpoint`. -/
def AnonStackInterface.versioned_endpoint (self : AnonStackInterface)
    (endpoint : String) (id action : Option String) : String :=
  versionedEndpointCore self.rest_client.api_version endpoint id action

/-- The test in both `__getattr__` implementations:
    `attr[0].isupper() and attr[1:].islower()`.  A Python identifier is never
    empty (on the empty string `attr[0]` itself would raise); the theorems
    below only quantify over nonempty attribute names. -/
def pyGetattrCond (attr : String) : Bool :=
  match attr.data with
  | [] => false
  | c :: rest => pyCharIsUpper c && pyStrIsLower (String.mk rest)

/-- `AnonStackInterface.__getattr__`: a matching name yields a fresh
    interface nested under this interface's endpoint, anything else raises
    AttributeError. -/
def AnonStackInterface.getattr (self : AnonStackInterface) (attr : String) :
    Except PyErr AnonStackInterface :=
  if pyGetattrCond attr then
    .ok (AnonStackInterface.init attr self.rest_client self.endpoint)
  else .error .attributeError

/-- The first two lines of `_parse_class_from_resource`: split the resource
    on '/' and delete the last segment when it rstrips to empty
    (`if not parts[-1].rstrip(): del parts[-1]`). -/
def resource_segments (resource : String) : List String :=
  let parts0 := splitSlash [] resource.data
  if (pyRstrip (parts0.getLastD "")).data.isEmpty then parts0.dropLast else parts0

/-- `AnonStackInterface._parse_class_from_resource` (the method does not read
    `self`): split on '/', drop the last segment when it rstrips to empty,
    take the second-to-last segment (`parts[-2]`) and capitalise it
    (`cls[0].upper() + cls[1:].lower()`).  Python raises IndexError when
    `parts[-2]` or `cls[0]` does not exist. -/
def parse_class_from_resource (resource : String) : Except PyErr String :=
  match (resource_segments resource).reverse with
  | _ :: cls :: _ =>
    match cls.data with
    | [] => .error .indexError
    | c :: rest => .ok (String.mk (pyUpperChar c :: rest.map pyLowerChar))
  | _ => .error .indexError

/-- Python `k in v` for a string key: key membership for dicts, substring
    test for strings, element equality for lists (a string compares equal
    only to an equal string), TypeError for the other values. -/
def pyContains (v : JValue) (k : String) : Except PyErr Bool :=
  match v with
  | .dict fields => .ok (fields.any (fun p => p.1 == k))
  | .str s => .ok (containsChars k.data s.data)
  | .arr items =>
    .ok (items.any (fun it =>
      match it with
      | .str s => s == k
      | _ => false))
  | _ => .error .typeError

/-- Python `v[k]` with a string key. -/
def pySubscript (v : JValue) (k : String) : Except PyErr JValue :=
  match v with
  | .dict fields =>
    match dictGet fields k with
    | some x => .ok x
    | none => .error .keyError
  | _ => .error .typeError

/-- `AnonStackInterface._unwind_result`: a result without a `data` key is a
    ValueError (logged and raised), otherwise the value under `data` is
    returned. -/
def unwind_result (result : JValue) : Except PyErr JValue := do
  let mem ← pyContains result "data"
  if mem then pySubscript result "data"
  else .error .valueError

/-- stackapi.AnonStackObject: an AnonStackInterface plus the visible field
    mapping (the dict part of the Python object).  `extra_slots` holds the
    per-instance attribute slots written by `__setattr__` that the typed
    identity fields cannot hold (slots no operation reads); it is empty on
    every object the library itself constructs. -/
structure AnonStackObject extends AnonStackInterface where
  data : List (String × JValue)
  extra_slots : List (String × JValue) := []

/-- `AnonStackObject.__init__`: reject non-dict data with a TypeError, copy
    every item into the (initially empty) mapping with `self[key] = value`,
    then run the interface `__init__` with the default empty prefix. -/
def AnonStackObject.init (rest_class : String) (client : RestApi) (data : JValue) :
    Except PyErr AnonStackObject :=
  match data with
  | .dict fields =>
    .ok { toAnonStackInterface := AnonStackInterface.init rest_class client "",
          data := dictMerge [] fields }
  | _ => .error .typeError

/-- `AnonStackObject.__setattr__`: `self[attr] = value` for a name that does
    not start with '_', followed by the unconditional
    `super(AnonStackObject, self).__setattr__(attr, value)`, which writes the
    hidden per-instance slot and never the mapping.  The structure's typed
    identity fields are the slots the operations read: a string written to
    `_rest_class` or `_endpoint` replaces the live identity.  `_rest_client`
    holds the client object and is set in `__init__`; a JSON value written
    over it, or a non-string over a string identity slot, puts the object in
    a state whose later identity reads fail in Python — such writes, and
    writes to slots no operation reads, are recorded verbatim in
    `extra_slots`. -/
def AnonStackObject.setattr (self : AnonStackObject) (attr : String) (value : JValue) :
    AnonStackObject :=
  let self2 :=
    if !pyStartsWith attr "_" then { self with data := dictSet self.data attr value }
    else self
  if attr = "_rest_class" then
    match value with
    | .str s => { self2 with rest_class := s }
    | v => { self2 with extra_slots := dictSet self2.extra_slots attr v }
  else if attr = "_endpoint" then
    match value with
    | .str s => { self2 with endpoint := s }
    | v => { self2 with extra_slots := dictSet self2.extra_slots attr v }
  else
    { self2 with extra_slots := dictSet self2.extra_slots attr value }

/-- Python `'%s' % v` for the scalar values that can reach endpoint
    formatting; container reprs never occur on the verified paths and are
    not modelled. -/
def pyStrOf : JValue → Except PyErr String
  | .str s => .ok s
  | .num n => .ok (toString n)
  | .bool b => .ok (if b then "True" else "False")
  | .dict _ => .error .typeError
  | .arr _ => .error .typeError

/-- The `_get_endpoint` fallback: `id = self.get('id')`, then
    `self._versioned_endpoint(self._endpoint, id)` with the id rendered by
    `%s` when present. -/
def AnonStackObject.fallback_endpoint (self : AnonStackObject) : Except PyErr String :=
  match dictGet self.data "id" with
  | none => .ok (versionedEndpointCore self.rest_client.api_version self.endpoint none none)
  | some v =>
    (pyStrOf v).map
      (fun i => versionedEndpointCore self.rest_client.api_version self.endpoint (some i) none)

/-- `AnonStackObject._get_endpoint`: a truthy `resource` value is preferred
    as the endpoint, otherwise the fallback versioned endpoint with the
    object id; `<action>/` is appended when given.  A truthy non-string
    resource fails inside the rest client before any request is issued. -/
def AnonStackObject.get_endpoint (self : AnonStackObject) (action : Option String) :
    Except PyErr String := do
  let base ←
    match dictGet self.data "resource" with
    | some v =>
      if pyTruthy v then
        match v with
        | .str s => Except.ok s
        | _ => Except.error PyErr.attributeError
      else self.fallback_endpoint
    | none => self.fallback_endpoint
  match action with
  | none => Except.ok base
  | some a => Except.ok (base ++ a ++ "/")

/-- A wrapped result item: either the raw item handed back unwrapped (after
    a logged warning) or a fresh AnonStackObject. -/
inductive Wrapped where
  | raw (item : JValue)
  | obj (o : AnonStackObject)

/-- The shape of `_wrap_rest_data`: one wrapped item for a dict result, a
    list of wrapped items for a list result. -/
inductive WrapResult where
  | one (w : Wrapped)
  | many (ws : List Wrapped)

/-- `AnonStackInterface._wrap_rest_data_one`: an item without a `resource`
    field logs a warning and is returned raw; otherwise the item is wrapped
    as an AnonStackObject of the class parsed from its resource path. -/
def AnonStackInterface.wrap_rest_data_one (self : AnonStackInterface) (item : JValue) :
    Except PyErr Wrapped := do
  let hasRes ← pyContains item "resource"
  if !hasRes then
    pure (Wrapped.raw item)
  else do
    let resVal ← pySubscript item "resource"
    match resVal with
    | .str s => do
      let cls ← parse_class_from_resource s
      let o ← AnonStackObject.init cls self.rest_client item
      pure (Wrapped.obj o)
    | _ => Except.error PyErr.attributeError

/-- `AnonStackInterface._wrap_rest_data`: a dict is wrapped as a single
    item, a list element-wise preserving order, anything else raises
    RuntimeError. -/
def AnonStackInterface.wrap_rest_data (self : AnonStackInterface) (data : JValue) :
    Except PyErr WrapResult :=
  match data with
  | .dict fields => (self.wrap_rest_data_one (.dict fields)).map .one
  | .arr items => (exceptMap self.wrap_rest_data_one items).map .many
  | _ => .error .runtimeError

/-- `AnonStackInterface.GET`: GET the versioned endpoint, unwind the
    envelope, wrap the data. -/
def AnonStackInterface.GET (self : AnonStackInterface) (oracle : Oracle)
    (id : Option String) (params : Option JValue) (action : Option String)
    (_headers : Option HeaderDict) : Trace × Except PyErr WrapResult :=
  let endpoint := self.versioned_endpoint self.endpoint id action
  let req : Request := ⟨.get, endpoint, none, params⟩
  ([req], do
    let d ← unwind_result (oracle req)
    self.wrap_rest_data d)

/-- `AnonStackInterface.POST`: POST to the versioned endpoint and return the
    unwound data raw (not wrapped). -/
def AnonStackInterface.POST (self : AnonStackInterface) (oracle : Oracle)
    (data : Option JValue) (_headers : Option HeaderDict) (action : Option String) :
    Trace × Except PyErr JValue :=
  let endpoint := self.versioned_endpoint self.endpoint none action
  let req : Request := ⟨.post, endpoint, data, none⟩
  ([req], unwind_result (oracle req))

/-- `AnonStackInterface.LIST`: GET with no id. -/
def AnonStackInterface.LIST (self : AnonStackInterface) (oracle : Oracle)
    (params : Option JValue) (headers : Option HeaderDict) :
    Trace × Except PyErr WrapResult :=
  self.GET oracle none params none headers

/-- `AnonStackObject.CREATE`: a truthy `resource` field is a ValueError
    before any call; otherwise POST the visible mapping (the JSON
    serialisation of the object) to the interface's versioned endpoint and
    merge the unwound response into the object.  A non-dict unwound value
    makes the merge loop raise. -/
def AnonStackObject.CREATE (self : AnonStackObject) (oracle : Oracle)
    (_headers : Option HeaderDict) : Trace × Except PyErr AnonStackObject :=
  if pyTruthyOpt (dictGet self.data "resource") then
    ([], .error .valueError)
  else
    let endpoint := self.toAnonStackInterface.versioned_endpoint self.endpoint none none
    let req : Request := ⟨.post, endpoint, some (.dict self.data), none⟩
    ([req],
      match unwind_result (oracle req) with
      | .error e => .error e
      | .ok d =>
        match d with
        | .dict respFields => .ok { self with data := dictMerge self.data respFields }
        | _ => .error .attributeError)

/-- `AnonStackObject.DELETE`: a missing `resource` entry is a ValueError
    before any call; otherwise DELETE the resource path and merge the
    unwound response into the object.  A non-string resource value fails
    inside the rest client before the network call. -/
def AnonStackObject.DELETE (self : AnonStackObject) (oracle : Oracle)
    (_headers : Option HeaderDict) : Trace × Except PyErr AnonStackObject :=
  match dictGet self.data "resource" with
  | none => ([], .error .valueError)
  | some v =>
    match v with
    | .str s =>
      let req : Request := ⟨.delete, s, none, none⟩
      ([req],
        match unwind_result (oracle req) with
        | .error e => .error e
        | .ok d =>
          match d with
          | .dict respFields => .ok { self with data := dictMerge self.data respFields }
          | _ => .error .attributeError)
    | _ => ([], .error .attributeError)

/-- `AnonStackObject.GET` (instance level): GET the resolved endpoint and
    return the unwound data raw (no merge into self). -/
def AnonStackObject.GET (self : AnonStackObject) (oracle : Oracle)
    (params : Option JValue) (action : Option String) (_headers : Option HeaderDict) :
    Trace × Except PyErr JValue :=
  match self.get_endpoint action with
  | .error e => ([], .error e)
  | .ok ep =>
    let req : Request := ⟨.get, ep, none, params⟩
    ([req], unwind_result (oracle req))

/-- `AnonStackObject.PUT`: PUT to the resolved endpoint and return the
    unwound data raw. -/
def AnonStackObject.PUT (self : AnonStackObject) (oracle : Oracle)
    (data : Option JValue) (action : Option String) (_headers : Option HeaderDict) :
    Trace × Except PyErr JValue :=
  match self.get_endpoint action with
  | .error e => ([], .error e)
  | .ok ep =>
    let req : Request := ⟨.put, ep, data, none⟩
    ([req], unwind_result (oracle req))

/-- stackapi.StackApi after construction: it holds the configured rest
    client. -/
structure StackApi where
  rest_client : RestApi
  deriving DecidableEq, Repr

/-- `StackApi.__getattr__`: the same naming test, yielding a top-level
    interface (empty endpoint prefix). -/
def StackApi.getattr (self : StackApi) (attr : String) : Except PyErr AnonStackInterface :=
  if pyGetattrCond attr then
    .ok (AnonStackInterface.init attr self.rest_client "")
  else .error .attributeError

/-- An attribute as seen by `dir(self)`/`getattr` in
    `_decorate_transport_funcs`: a bound method, or a plain value (the
    `api_version` and `entrypoint` properties resolve to strings, which the
    `isinstance(method, types.MethodType)` test skips). -/
inductive RestAttr (A R : Type) where
  | method (f : A → R)
  | value (v : JValue)

/-- restapi._wrap_transport_decorator: the replacement closure forwards the
    original bound function, the opaque userdata and the exact call
    arguments to the controller and returns its result. -/
def wrap_transport_decorator {A R U : Type} (transport_fn : A → R)
    (wrapper : (A → R) → U → A → R) (userdata : U) : A → R :=
  fun args => wrapper transport_fn userdata args

/-- `RestApi._decorate_transport_funcs`: every attribute whose name does not
    start with '_' and which is a bound method is individually replaced by
    the wrapper closure; underscore names and non-method attributes are left
    untouched. -/
def decorate_transport_funcs {A R U : Type} (attrs : List (String × RestAttr A R))
    (controller : (A → R) → U → A → R) (userdata : U) : List (String × RestAttr A R) :=
  attrs.map (fun p =>
    if pyStartsWith p.1 "_" then p
    else
      match p.2 with
      | .method f => (p.1, .method (wrap_transport_decorator f controller userdata))
      | .value _ => p)

/-- A heap of header dicts, addressed by allocation index, making Python's
    reference semantics (mutation and `copy.copy`) explicit for
    `_merge_headers`. -/
abbrev HeapStore := List HeaderDict

def heapAlloc (st : HeapStore) (d : HeaderDict) : Nat × HeapStore := (st.length, st ++ [d])

def heapGet (st : HeapStore) (r : Nat) : HeaderDict := st.getD r []

def heapSetItem (st : HeapStore) (r : Nat) (k v : String) : HeapStore :=
  st.set r (dictSet (heapGet st r) k v)

/-- `RestApi._merge_headers` over the heap: `headers = {}`; a `copy.copy` of
    `extra` when one is given; then the api key header (only when the
    configured key is truthy), the version header, the POST content headers
    and the user agent (only when truthy) are assigned on the fresh
    `headers` dict, never on the caller's. -/
def RestApi.merge_headers (cfg : RestApi) (st0 : HeapStore) (extra : Option Nat)
    (is_post : Bool) : Nat × HeapStore :=
  let alloc0 := heapAlloc st0 []
  let h0 := alloc0.1
  let st1 := alloc0.2
  let allocated :=
    match extra with
    | none => (h0, st1)
    | some e => heapAlloc st1 (heapGet st1 e)
  let h := allocated.1
  let st2 := allocated.2
  let st3 :=
    match cfg.apikey with
    | some k => if k.data.isEmpty then st2 else heapSetItem st2 h "x-stackdriver-apikey" k
    | none => st2
  let st4 := heapSetItem st3 h "x-stackdriver-version" cfg.version
  let st5 :=
    if is_post then
      heapSetItem (heapSetItem st4 h "accept" "application/json, text/plain, */*")
        h "content-type" "application/json"
    else st4
  let st6 :=
    match cfg.useragent with
    | some ua => if ua.data.isEmpty then st5 else heapSetItem st5 h "user-agent" ua
    | none => st5
  (h, st6)

/-- The contents the merge produces, as a pure function of the contents of
    the caller's dict (proved to agree with the heap computation below). -/
def mergeHeadersContents (cfg : RestApi) (base : HeaderDict) (is_post : Bool) : HeaderDict :=
  let d := base
  let d :=
    match cfg.apikey with
    | some k => if k.data.isEmpty then d else dictSet d "x-stackdriver-apikey" k
    | none => d
  let d := dictSet d "x-stackdriver-version" cfg.version
  let d :=
    if is_post then
      dictSet (dictSet d "accept" "application/json, text/plain, */*")
        "content-type" "application/json"
    else d
  match cfg.useragent with
  | some ua => if ua.data.isEmpty then d else dictSet d "user-agent" ua
  | none => d

/- Concrete fixtures used by the closed witnesses and counterexamples. -/

/-- A concrete client configuration. -/
def sampleClient : RestApi :=
  { entrypoint_uri := "https://api.stackdriver.com/", version := "0.2",
    apikey := some "key", username := none, password := none, useragent := none }

def sampleApi : StackApi := ⟨sampleClient⟩

def sampleInterface : AnonStackInterface := AnonStackInterface.init "Group" sampleClient ""

/-- The naming pattern of claim C1 read literally: the first character is an
    uppercase letter and every remaining character is a lowercase letter
    (vacuously true of a single-character name such as "A"). -/
def spec_cap_then_lower (s : String) : Bool :=
  match s.data with
  | [] => false
  | c :: rest => pyCharIsUpper c && rest.all pyCharIsLower

/-- The object produced by wrapping an item whose resource is "/widget/42/":
    class "Widget", fresh top-level endpoint, copied data. -/
def c3obj (iface : AnonStackInterface) (fields : List (String × JValue)) : AnonStackObject :=
  { toAnonStackInterface := AnonStackInterface.init "Widget" iface.rest_client "",
    data := dictMerge [] fields }

/-- The reachable object state that refutes C5: a wrapped/constructed object
    whose `resource` field is the empty string. -/
def c5obj : AnonStackObject :=
  { toAnonStackInterface := AnonStackInterface.init "Group" sampleClient "",
    data := [("resource", JValue.str "")] }

/-- A configuration with no api key configured (custom-headers flow). -/
def c9cfg : RestApi :=
  { entrypoint_uri := "https://api.stackdriver.com/", version := "0.2",
    apikey := none, username := none, password := none, useragent := none }

/- Shared lemmas about the dict model and the Except monad. -/

theorem except_bind_ok {ε α β : Type} (a : α) (f : α → Except ε β) :
    (Except.ok a >>= f : Except ε β) = f a := rfl

theorem except_map_ok {ε α β : Type} (a : α) (f : α → β) :
    (Except.ok a : Except ε α).map f = .ok (f a) := rfl

theorem str_empty_append (s : String) : "" ++ s = s := by
  cases s
  rfl

theorem string_mk_data (cs : List Char) : (String.mk cs).data = cs := rfl

theorem dictGet_dictSet_self {α : Type} (d : List (String × α)) (k : String) (v : α) :
    dictGet (dictSet d k v) k = some v := by
  induction d with
  | nil => simp [dictSet, dictGet]
  | cons p rest ih =>
    obtain ⟨k2, w⟩ := p
    by_cases h : k2 = k
    · simp [dictSet, dictGet, h]
    · simp [dictSet, dictGet, h, ih]

theorem dictGet_dictSet_ne {α : Type} (d : List (String × α)) (k k0 : String) (v : α)
    (h : k0 ≠ k) : dictGet (dictSet d k0 v) k = dictGet d k := by
  induction d with
  | nil => simp [dictSet, dictGet, h]
  | cons p rest ih =>
    obtain ⟨k2, w⟩ := p
    by_cases h2 : k2 = k0
    · subst h2
      simp [dictSet, dictGet, h]
    · by_cases h3 : k2 = k
      · subst h3
        simp [dictSet, dictGet, h2]
      · simp [dictSet, dictGet, h2, h3, ih]

theorem dictGet_eq_none_of_not_mem {α : Type} (d : List (String × α)) (k : String)
    (h : k ∉ d.map Prod.fst) : dictGet d k = none := by
  induction d with
  | nil => rfl
  | cons p rest ih =>
    obtain ⟨k2, w⟩ := p
    simp only [List.map_cons, List.mem_cons] at h
    push_neg at h
    simp [dictGet, Ne.symm h.1, ih h.2]

theorem not_mem_of_dictGet_eq_none {α : Type} (d : List (String × α)) (k : String)
    (h : dictGet d k = none) : k ∉ d.map Prod.fst := by
  induction d with
  | nil => simp
  | cons p rest ih =>
    obtain ⟨k2, w⟩ := p
    by_cases hk : k2 = k
    · simp [dictGet, hk] at h
    · simp only [dictGet, hk, if_false] at h
      simp [List.map_cons, ih h, Ne.symm hk]

theorem dictGet_some_mem {α : Type} (d : List (String × α)) (k : String) (v : α)
    (h : dictGet d k = some v) : (k, v) ∈ d := by
  induction d with
  | nil => simp [dictGet] at h
  | cons p rest ih =>
    obtain ⟨k2, w⟩ := p
    by_cases hk : k2 = k
    · subst hk
      simp [dictGet] at h
      simp [h]
    · simp only [dictGet, hk, if_false] at h
      exact List.mem_cons_of_mem _ (ih h)

theorem dictMerge_cons {α : Type} (d : List (String × α)) (k : String) (v : α)
    (rest : List (String × α)) :
    dictMerge d ((k, v) :: rest) = dictMerge (dictSet d k v) rest := rfl

theorem dictGet_dictMerge_not_mem {α : Type} (upd d : List (String × α)) (k : String)
    (h : k ∉ upd.map Prod.fst) : dictGet (dictMerge d upd) k = dictGet d k := by
  induction upd generalizing d with
  | nil => rfl
  | cons p rest ih =>
    obtain ⟨k2, w⟩ := p
    simp only [List.map_cons, List.mem_cons] at h
    push_neg at h
    rw [dictMerge_cons, ih _ h.2, dictGet_dictSet_ne _ _ _ _ (Ne.symm h.1)]

theorem dictGet_dictMerge_mem {α : Type} (upd d : List (String × α)) (k : String) (v : α)
    (hnd : (upd.map Prod.fst).Nodup) (hmem : (k, v) ∈ upd) :
    dictGet (dictMerge d upd) k = some v := by
  induction upd generalizing d with
  | nil => simp at hmem
  | cons p rest ih =>
    obtain ⟨k2, w⟩ := p
    simp only [List.map_cons, List.nodup_cons] at hnd
    rcases List.mem_cons.mp hmem with h | h
    · cases h
      rw [dictMerge_cons]
      have hk : k ∉ rest.map Prod.fst := hnd.1
      rw [dictGet_dictMerge_not_mem _ _ _ hk, dictGet_dictSet_self]
    · exact dictMerge_cons _ _ _ _ ▸ ih _ hnd.2 h

theorem any_key_beq_eq_isSome {α : Type} (d : List (String × α)) (k : String) :
    d.any (fun p => p.1 == k) = (dictGet d k).isSome := by
  induction d with
  | nil => rfl
  | cons p rest ih =>
    obtain ⟨k2, w⟩ := p
    by_cases h : k2 = k
    · simp [dictGet, h]
    · simp [dictGet, h, ih]

theorem mem_keys_dictSet {α : Type} (d : List (String × α)) (k0 k : String) (v : α)
    (h : k ∈ (dictSet d k0 v).map Prod.fst) : k = k0 ∨ k ∈ d.map Prod.fst := by
  induction d with
  | nil => simpa [dictSet] using h
  | cons p rest ih =>
    obtain ⟨k2, w⟩ := p
    by_cases h2 : k2 = k0
    · subst h2
      simpa [dictSet] using h
    · simp only [dictSet, h2, if_false, List.map_cons, List.mem_cons] at h
      rcases h with h | h
      · exact Or.inr (by simp [h])
      · rcases ih h with h3 | h3
        · exact Or.inl h3
        · exact Or.inr (List.mem_cons_of_mem _ h3)

theorem mem_keys_dictMerge {α : Type} (upd d : List (String × α)) (k : String)
    (h : k ∈ (dictMerge d upd).map Prod.fst) :
    k ∈ d.map Prod.fst ∨ k ∈ upd.map Prod.fst := by
  induction upd generalizing d with
  | nil => exact Or.inl h
  | cons p rest ih =>
    obtain ⟨k2, w⟩ := p
    rw [dictMerge_cons] at h
    rcases ih _ h with h2 | h2
    · rcases mem_keys_dictSet _ _ _ _ h2 with h3 | h3
      · exact Or.inr (by simp [h3])
      · exact Or.inl h3
    · exact Or.inr (List.mem_cons_of_mem _ h2)

/-- C1 fails as stated: the single-letter name "A" matches the claimed
    pattern (uppercase first character, all zero remaining characters
    lowercase), yet both `__getattr__` implementations raise AttributeError,
    because Python `"".islower()` is False. -/
theorem C1_counterexample :
    spec_cap_then_lower "A" = true ∧
    sampleInterface.getattr "A" = .error .attributeError ∧
    sampleApi.getattr "A" = .error .attributeError := by
  refine ⟨by decide, rfl, rfl⟩

/-- C1 (amended): for a nonempty attribute name not otherwise defined, both
    `__getattr__` implementations yield a fresh ResourceInterface for that
    name — nested under the current interface's endpoint for
    AnonStackInterface, top level for StackApi — exactly when the first
    character is an uppercase letter, the remainder contains at least one
    letter and no letter of the remainder is uppercase (Python
    `attr[1:].islower()`); every other nonempty undefined name raises
    AttributeError. -/
theorem C1_getattr (iface : AnonStackInterface) (api : StackApi) (attr : String)
    (c : Char) (rest : List Char) (hdata : attr.data = c :: rest) :
    ((pyCharIsUpper c && (rest.any pyCharIsCased && rest.all (fun x => !pyCharIsUpper x))) = true →
      iface.getattr attr = .ok (AnonStackInterface.init attr iface.rest_client iface.endpoint) ∧
      api.getattr attr = .ok (AnonStackInterface.init attr api.rest_client "")) ∧
    ((pyCharIsUpper c && (rest.any pyCharIsCased && rest.all (fun x => !pyCharIsUpper x))) = false →
      iface.getattr attr = .error .attributeError ∧
      api.getattr attr = .error .attributeError) := by
  have hcond : pyGetattrCond attr =
      (pyCharIsUpper c && (rest.any pyCharIsCased && rest.all (fun x => !pyCharIsUpper x))) := by
    simp [pyGetattrCond, hdata, pyStrIsLower, string_mk_data]
  constructor
  · intro h
    exact ⟨by simp [AnonStackInterface.getattr, hcond, h],
           by simp [StackApi.getattr, hcond, h]⟩
  · intro h
    exact ⟨by simp [AnonStackInterface.getattr, hcond, h],
           by simp [StackApi.getattr, hcond, h]⟩

/-- Witness for C1: "Group" matches the pattern on both implementations and
    "HTTP" (uppercase letters in the remainder) raises AttributeError. -/
theorem C1_witness :
    (sampleInterface.getattr "Group" =
        .ok (AnonStackInterface.init "Group" sampleInterface.rest_client sampleInterface.endpoint) ∧
      sampleApi.getattr "Group" = .ok (AnonStackInterface.init "Group" sampleApi.rest_client "")) ∧
    (sampleInterface.getattr "HTTP" = .error .attributeError ∧
      sampleApi.getattr "HTTP" = .error .attributeError) :=
  ⟨(C1_getattr sampleInterface sampleApi "Group" 'G' "roup".data rfl).1 (by decide),
   (C1_getattr sampleInterface sampleApi "HTTP" 'H' "TTP".data rfl).2 (by decide)⟩

/-- C2: an interface's endpoint is the prefix followed by the lowercased
    type name and '/', where the prefix is empty for top-level access and
    the parent's endpoint for nested access (so ApiRoot.A.B has endpoint
    lower(A)/lower(B)/), and the versioned endpoint is
    v<version>/<endpoint>, then <id>/ when an id is given, then <action>/
    when an action is given, in that order. -/
theorem C2_endpoints (T P A B E i a : String) (c : RestApi) (api : StackApi)
    (ia ib : AnonStackInterface) (x : AnonStackInterface) :
    (AnonStackInterface.init T c P).endpoint = P ++ pyLower T ++ "/" ∧
    (api.getattr A = .ok ia → ia.endpoint = pyLower A ++ "/") ∧
    (api.getattr A = .ok ia → ia.getattr B = .ok ib →
      ib.endpoint = pyLower A ++ "/" ++ pyLower B ++ "/") ∧
    x.versioned_endpoint E none none = "v" ++ x.rest_client.api_version ++ "/" ++ E ∧
    x.versioned_endpoint E (some i) none =
      "v" ++ x.rest_client.api_version ++ "/" ++ E ++ i ++ "/" ∧
    x.versioned_endpoint E none (some a) =
      "v" ++ x.rest_client.api_version ++ "/" ++ E ++ a ++ "/" ∧
    x.versioned_endpoint E (some i) (some a) =
      "v" ++ x.rest_client.api_version ++ "/" ++ E ++ i ++ "/" ++ a ++ "/" := by
  have hA : api.getattr A = .ok ia → ia = AnonStackInterface.init A api.rest_client "" := by
    intro h
    unfold StackApi.getattr at h
    split at h
    · cases h; rfl
    · cases h
  refine ⟨rfl, ?_, ?_, rfl, rfl, rfl, rfl⟩
  · intro h
    rw [hA h]
    simp [AnonStackInterface.init, str_empty_append]
  · intro h hB
    have hia := hA h
    subst hia
    unfold AnonStackInterface.getattr at hB
    split at hB
    · cases hB
      simp [AnonStackInterface.init, str_empty_append]
    · cases hB

/-- Witness for C2: interface "Group" on the sample api, nested "Instance",
    and the fully applied versioned endpoint. -/
theorem C2_witness :
    AnonStackInterface.endpoint
        (AnonStackInterface.init "Instance" sampleClient
          (AnonStackInterface.init "Group" sampleClient "").endpoint) =
      pyLower "Group" ++ "/" ++ pyLower "Instance" ++ "/" ∧
    sampleInterface.versioned_endpoint "group/" (some "1") (some "start") =
      "v" ++ sampleInterface.rest_client.api_version ++ "/" ++ "group/" ++ "1" ++ "/" ++ "start" ++ "/" := by
  refine ⟨?_, ?_⟩
  · exact (C2_endpoints "Group" "" "Group" "Instance" "group/" "1" "start" sampleClient sampleApi
      (AnonStackInterface.init "Group" sampleClient "")
      (AnonStackInterface.init "Instance" sampleClient
        (AnonStackInterface.init "Group" sampleClient "").endpoint)
      sampleInterface).2.2.1 rfl rfl
  · exact (C2_endpoints "Group" "" "Group" "Instance" "group/" "1" "start" sampleClient sampleApi
      sampleInterface sampleInterface sampleInterface).2.2.2.2.2.2

/-- C7: with a transport controller supplied at construction, every public
    bound method is individually replaced by a wrapper; invoking the wrapper
    with any arguments calls the controller with the original bound verb,
    the opaque userdata and exactly those arguments and returns the
    controller's result; attributes whose name starts with '_' are never
    wrapped. -/
theorem C7_decoration {A R U : Type} (attrs : List (String × RestAttr A R))
    (controller : (A → R) → U → A → R) (userdata : U) (n : String) (f : A → R)
    (att : RestAttr A R) :
    (pyStartsWith n "_" = false → (n, RestAttr.method f) ∈ attrs →
      ((n, RestAttr.method (wrap_transport_decorator f controller userdata)) ∈
          decorate_transport_funcs attrs controller userdata ∧
        ∀ args : A, wrap_transport_decorator f controller userdata args =
          controller f userdata args)) ∧
    (pyStartsWith n "_" = true → (n, att) ∈ attrs →
      (n, att) ∈ decorate_transport_funcs attrs controller userdata) := by
  constructor
  · intro hpub hmem
    refine ⟨?_, fun args => rfl⟩
    have h2 := List.mem_map_of_mem
      (fun p : String × RestAttr A R =>
        if pyStartsWith p.1 "_" then p
        else
          match p.2 with
          | .method g => (p.1, RestAttr.method (wrap_transport_decorator g controller userdata))
          | .value _ => p) hmem
    simpa [decorate_transport_funcs, hpub] using h2
  · intro hpriv hmem
    have h2 := List.mem_map_of_mem
      (fun p : String × RestAttr A R =>
        if pyStartsWith p.1 "_" then p
        else
          match p.2 with
          | .method g => (p.1, RestAttr.method (wrap_transport_decorator g controller userdata))
          | .value _ => p) hmem
    simpa [decorate_transport_funcs, hpriv] using h2

/-- Witness for C7: a two-entry attribute table; the public verb is wrapped
    and forwards through the controller, the underscore method is untouched. -/
theorem C7_witness :
    (("get", RestAttr.method (wrap_transport_decorator (fun x : Nat => x * 2)
          (fun g u args1 => g args1 + u) 7)) ∈
        decorate_transport_funcs
          [("get", RestAttr.method (fun x : Nat => x * 2)),
           ("_merge", RestAttr.method (fun x : Nat => x))]
          (fun g u args1 => g args1 + u) 7 ∧
      ∀ args : Nat, wrap_transport_decorator (fun x : Nat => x * 2)
          (fun g u args1 => g args1 + u) 7 args =
        (fun g u args1 => g args1 + u) (fun x : Nat => x * 2) 7 args) ∧
    ("_merge", RestAttr.method (fun x : Nat => x)) ∈
      decorate_transport_funcs
        [("get", RestAttr.method (fun x : Nat => x * 2)),
         ("_merge", RestAttr.method (fun x : Nat => x))]
        (fun g u args1 => g args1 + u) 7 :=
  ⟨(C7_decoration
      [("get", RestAttr.method (fun x : Nat => x * 2)),
       ("_merge", RestAttr.method (fun x : Nat => x))]
      (fun g u args1 => g args1 + u) 7 "get" (fun x : Nat => x * 2)
      (RestAttr.value (JValue.num 0))).1 rfl (List.mem_cons_self _ _),
   (C7_decoration
      [("get", RestAttr.method (fun x : Nat => x * 2)),
       ("_merge", RestAttr.method (fun x : Nat => x))]
      (fun g u args1 => g args1 + u) 7 "_merge" (fun x : Nat => x)
      (RestAttr.method (fun x : Nat => x))).2 rfl
     (List.mem_cons_of_mem _ (List.mem_cons_self _ _))⟩

/-- C10 fails as stated: attribute assignment does route non-underscore
    names to the mapping and underscore names to the hidden slot, but the
    dictionary-level copy in `__init__` (and the CREATE/DELETE merge loops)
    uses item assignment, so data that itself contains an identity field
    name such as `_rest_class` puts that name into the enumerated mapping. -/
theorem C10_counterexample :
    (AnonStackObject.init "Group" sampleClient
        (JValue.dict [("_rest_class", JValue.str "evil")])).map
      (fun o => o.data.map Prod.fst) = .ok ["_rest_class"] := rfl

/-- C10 (amended): attribute assignment with a name not beginning with '_'
    stores into the visible mapping (and the stored value is retrievable);
    a name beginning with '_' leaves the mapping untouched and goes to the
    hidden per-instance slot — in particular a string assigned to
    `_rest_class` or `_endpoint` replaces the live identity, and any other
    slot receives the value verbatim.  Hence attribute assignment never adds
    an identity-named key to the mapping, and the dict-level merge loops
    preserve the absence of underscore-prefixed keys whenever the merged
    server data contains none. -/
theorem C10_setattr (self : AnonStackObject) (attr : String) (value : JValue) :
    (pyStartsWith attr "_" = false →
      (self.setattr attr value).data = dictSet self.data attr value ∧
      dictGet (self.setattr attr value).data attr = some value) ∧
    (pyStartsWith attr "_" = true → (self.setattr attr value).data = self.data) ∧
    (∀ s : String,
      (self.setattr "_rest_class" (.str s)).rest_class = s ∧
      (self.setattr "_rest_class" (.str s)).data = self.data ∧
      (self.setattr "_endpoint" (.str s)).endpoint = s ∧
      (self.setattr "_endpoint" (.str s)).data = self.data) ∧
    (attr ≠ "_rest_class" → attr ≠ "_endpoint" →
      dictGet (self.setattr attr value).extra_slots attr = some value) ∧
    (∀ k, k ∈ (self.setattr attr value).data.map Prod.fst →
      pyStartsWith k "_" = true → k ∈ self.data.map Prod.fst) ∧
    (∀ fields : List (String × JValue),
      (∀ k ∈ self.data.map Prod.fst, pyStartsWith k "_" = false) →
      (∀ k ∈ fields.map Prod.fst, pyStartsWith k "_" = false) →
      ∀ k ∈ (dictMerge self.data fields).map Prod.fst, pyStartsWith k "_" = false) := by
  have hrc : pyStartsWith "_rest_class" "_" = true := by decide
  have hep : pyStartsWith "_endpoint" "_" = true := by decide
  have hdata : (self.setattr attr value).data =
      (if !pyStartsWith attr "_" then dictSet self.data attr value else self.data) := by
    unfold AnonStackObject.setattr
    cases value <;> split_ifs <;> rfl
  refine ⟨?_, ?_, ?_, ?_, ?_, ?_⟩
  · intro h
    rw [hdata]
    simp [h, dictGet_dictSet_self]
  · intro h
    rw [hdata]
    simp [h]
  · intro s
    refine ⟨?_, ?_, ?_, ?_⟩
    · simp [AnonStackObject.setattr, hrc]
    · simp [AnonStackObject.setattr, hrc]
    · simp [AnonStackObject.setattr, hep]
    · simp [AnonStackObject.setattr, hep]
  · intro h1 h2
    have : (self.setattr attr value).extra_slots =
        dictSet self.extra_slots attr value := by
      unfold AnonStackObject.setattr
      cases value <;> split_ifs <;> simp_all
    rw [this, dictGet_dictSet_self]
  · intro k hk hunder
    rw [hdata] at hk
    by_cases h : pyStartsWith attr "_"
    · simpa [h] using hk
    · simp only [h, Bool.not_false, if_true] at hk
      rcases mem_keys_dictSet _ _ _ _ hk with h2 | h2
      · subst h2
        rw [hunder] at h
        exact absurd rfl h
      · exact h2
  · intro fields hself hfields k hk
    rcases mem_keys_dictMerge _ _ _ hk with h | h
    · exact hself k h
    · exact hfields k h

/-- Witness for C10: on a concrete object, assigning "name" stores into the
    mapping, assigning "_endpoint" leaves the mapping unchanged but replaces
    the live endpoint, an unread slot receives its value verbatim, and a
    merge of underscore-free data keeps all keys underscore-free. -/
theorem C10_witness :
    (AnonStackObject.setattr
        { toAnonStackInterface := sampleInterface, data := [] } "name"
        (JValue.str "x")).data = dictSet [] "name" (JValue.str "x") ∧
    (AnonStackObject.setattr
        { toAnonStackInterface := sampleInterface, data := [] } "_endpoint"
        (JValue.str "elsewhere/")).data = [] ∧
    (AnonStackObject.setattr
        { toAnonStackInterface := sampleInterface, data := [] } "_endpoint"
        (JValue.str "elsewhere/")).endpoint = "elsewhere/" ∧
    dictGet (AnonStackObject.setattr
        { toAnonStackInterface := sampleInterface, data := [] } "_userdata"
        (JValue.num 7)).extra_slots "_userdata" = some (JValue.num 7) ∧
    ∀ k ∈ (dictMerge ([] : List (String × JValue)) [("id", JValue.num 1)]).map Prod.fst,
      pyStartsWith k "_" = false := by
  refine ⟨?_, ?_, ?_, ?_, ?_⟩
  · exact ((C10_setattr { toAnonStackInterface := sampleInterface, data := [] }
      "name" (JValue.str "x")).1 rfl).1
  · exact ((C10_setattr { toAnonStackInterface := sampleInterface, data := [] }
      "_endpoint" (JValue.str "elsewhere/")).2.2.1 "elsewhere/").2.2.2
  · exact ((C10_setattr { toAnonStackInterface := sampleInterface, data := [] }
      "_endpoint" (JValue.str "elsewhere/")).2.2.1 "elsewhere/").2.2.1
  · exact (C10_setattr { toAnonStackInterface := sampleInterface, data := [] }
      "_userdata" (JValue.num 7)).2.2.2.1 (by decide) (by decide)
  · exact (C10_setattr { toAnonStackInterface := sampleInterface, data := [] }
      "_endpoint" (JValue.str "elsewhere/")).2.2.2.2.2 [("id", JValue.num 1)]
      (by simp) (by intro k hk; simp at hk; subst hk; rfl)

theorem except_bind_err {ε α β : Type} (e : ε) (f : α → Except ε β) :
    (Except.error e >>= f : Except ε β) = .error e := rfl

theorem except_pure_eq {ε α : Type} (a : α) : (pure a : Except ε α) = .ok a := rfl

theorem exceptMap_ok_length {ε α β : Type} (f : α → Except ε β) (l : List α) (bs : List β)
    (h : exceptMap f l = .ok bs) : bs.length = l.length := by
  induction l generalizing bs with
  | nil =>
    unfold exceptMap at h
    cases h
    rfl
  | cons a as ih =>
    unfold exceptMap at h
    cases hfa : f a with
    | error e =>
      rw [hfa, except_bind_err] at h
      exact Except.noConfusion h
    | ok b =>
      rw [hfa, except_bind_ok] at h
      cases hm : exceptMap f as with
      | error e =>
        rw [hm, except_bind_err] at h
        exact Except.noConfusion h
      | ok bs2 =>
        rw [hm, except_bind_ok, except_pure_eq] at h
        cases h
        simp [ih _ hm]

/-- C8 fails as stated: the malformed resource path "x" (a single segment,
    no '/' separators) makes wrapping raise IndexError instead of degrading
    to the raw mapping with a warning. -/
theorem C8_counterexample :
    parse_class_from_resource "x" = .error .indexError ∧
    sampleInterface.wrap_rest_data_one (.dict [("resource", JValue.str "x")]) =
      .error .indexError := ⟨rfl, rfl⟩

/-- C8 (amended): an item lacking a `resource` field degrades non-fatally:
    the raw mapping is returned (with a logged warning), no typed wrapping
    occurs and nothing is raised.  An item whose `resource` field is a
    string that the parser cannot index — fewer than two '/'-separated
    segments after removing a blank trailing segment, or a blank
    second-to-last segment — makes wrapping raise IndexError rather than
    degrade; IndexError is the only parse failure. -/
theorem C8_wrap_fallback (iface : AnonStackInterface) (fields : List (String × JValue))
    (s : String) :
    (dictGet fields "resource" = none →
      iface.wrap_rest_data_one (.dict fields) = .ok (.raw (.dict fields))) ∧
    (dictGet fields "resource" = some (.str s) →
      parse_class_from_resource s = .error .indexError →
      iface.wrap_rest_data_one (.dict fields) = .error .indexError) ∧
    (∀ e : PyErr, parse_class_from_resource s = .error e → e = .indexError) ∧
    ((resource_segments s).length < 2 →
      parse_class_from_resource s = .error .indexError) ∧
    (∀ t rest1, (resource_segments s).reverse = t :: "" :: rest1 →
      parse_class_from_resource s = .error .indexError) := by
  refine ⟨?_, ?_, ?_, ?_, ?_⟩
  · intro hres
    have hany : fields.any (fun p => p.1 == "resource") = false := by
      rw [any_key_beq_eq_isSome, hres]
      rfl
    simp [AnonStackInterface.wrap_rest_data_one, pyContains, hany, except_bind_ok,
      except_pure_eq]
  · intro hres hparse
    have hany : fields.any (fun p => p.1 == "resource") = true := by
      rw [any_key_beq_eq_isSome, hres]
      rfl
    simp [AnonStackInterface.wrap_rest_data_one, pyContains, hany, pySubscript, hres,
      except_bind_ok, hparse, except_bind_err]
  · intro e he
    unfold parse_class_from_resource at he
    split at he
    · split at he
      · cases he
        rfl
      · exact Except.noConfusion he
    · cases he
      rfl
  · intro hlen
    unfold parse_class_from_resource
    split
    · next t cls rest1 heq =>
      exfalso
      have h2 : (resource_segments s).reverse.length < 2 := by
        simpa using hlen
      rw [heq] at h2
      simp only [List.length_cons] at h2
      omega
    · rfl
  · intro t rest1 heq
    unfold parse_class_from_resource
    rw [heq]

/-- Witness for C8: a resource-less item is returned raw, and the malformed
    path "/x" (blank second-to-last segment) raises IndexError through the
    wrapper. -/
theorem C8_witness :
    sampleInterface.wrap_rest_data_one (.dict [("id", JValue.num 3)]) =
      .ok (.raw (.dict [("id", JValue.num 3)])) ∧
    sampleInterface.wrap_rest_data_one (.dict [("resource", JValue.str "/x")]) =
      .error .indexError ∧
    parse_class_from_resource "" = .error .indexError := by
  refine ⟨?_, ?_, ?_⟩
  · exact (C8_wrap_fallback sampleInterface [("id", JValue.num 3)] "").1 rfl
  · exact (C8_wrap_fallback sampleInterface [("resource", JValue.str "/x")] "/x").2.1 rfl rfl
  · exact (C8_wrap_fallback sampleInterface [] "").2.2.2.1 (by decide)

/-- C3: result wrapping is shape-preserving and round-trips resource paths.
    A single mapping with resource "/widget/42/" becomes exactly one wrapped
    object (not a list) of type "Widget" with hidden endpoint "widget/",
    whose subsequent DELETE issues exactly one DELETE request to
    "/widget/42/"; a list payload becomes a list of wrapped items of the
    same length preserving server order.  (Python dict keys are unique,
    hence the Nodup hypothesis on the mapping.) -/
theorem C3_wrap_roundtrip (iface : AnonStackInterface) (fields : List (String × JValue))
    (oracle : Oracle) (items : List JValue) (ws : List Wrapped)
    (hres : dictGet fields "resource" = some (.str "/widget/42/"))
    (hnd : (fields.map Prod.fst).Nodup)
    (hws : exceptMap iface.wrap_rest_data_one items = .ok ws) :
    iface.wrap_rest_data (.dict fields) = .ok (.one (.obj (c3obj iface fields))) ∧
    (c3obj iface fields).rest_class = "Widget" ∧
    (c3obj iface fields).endpoint = "widget/" ∧
    ((c3obj iface fields).DELETE oracle none).1 = [⟨Verb.delete, "/widget/42/", none, none⟩] ∧
    iface.wrap_rest_data (.arr items) = .ok (.many ws) ∧
    ws.length = items.length := by
  have hany : fields.any (fun p => p.1 == "resource") = true := by
    rw [any_key_beq_eq_isSome, hres]
    rfl
  have hparse : parse_class_from_resource "/widget/42/" = .ok "Widget" := rfl
  refine ⟨?_, rfl, rfl, ?_, ?_, exceptMap_ok_length _ _ _ hws⟩
  · simp [AnonStackInterface.wrap_rest_data, AnonStackInterface.wrap_rest_data_one,
      pyContains, hany, pySubscript, hres, except_bind_ok, hparse,
      AnonStackObject.init, except_pure_eq, except_map_ok, c3obj]
  · have hget : dictGet (dictMerge [] fields) "resource" = some (.str "/widget/42/") :=
      dictGet_dictMerge_mem fields [] _ _ hnd (dictGet_some_mem _ _ _ hres)
    simp [AnonStackObject.DELETE, c3obj, hget]
  · show Except.map WrapResult.many (exceptMap iface.wrap_rest_data_one items) =
      .ok (.many ws)
    rw [hws]
    rfl

/-- Witness for C3: a concrete widget item and a concrete two-element host
    list, evaluated end to end. -/
theorem C3_witness :
    sampleInterface.wrap_rest_data
        (.dict [("id", JValue.num 42), ("resource", JValue.str "/widget/42/")]) =
      .ok (.one (.obj (c3obj sampleInterface
        [("id", JValue.num 42), ("resource", JValue.str "/widget/42/")]))) ∧
    ((c3obj sampleInterface
        [("id", JValue.num 42), ("resource", JValue.str "/widget/42/")]).DELETE
      (fun _ => JValue.dict [("data", JValue.dict [])]) none).1 =
      [⟨Verb.delete, "/widget/42/", none, none⟩] ∧
    sampleInterface.wrap_rest_data
        (.arr [JValue.dict [("resource", JValue.str "/host/1/")],
               JValue.dict [("resource", JValue.str "/host/2/")]]) =
      .ok (.many
        [.obj { toAnonStackInterface := AnonStackInterface.init "Host" sampleClient "",
                data := [("resource", JValue.str "/host/1/")] },
         .obj { toAnonStackInterface := AnonStackInterface.init "Host" sampleClient "",
                data := [("resource", JValue.str "/host/2/")] }]) := by
  have h := C3_wrap_roundtrip sampleInterface
    [("id", JValue.num 42), ("resource", JValue.str "/widget/42/")]
    (fun _ => JValue.dict [("data", JValue.dict [])])
    [JValue.dict [("resource", JValue.str "/host/1/")],
     JValue.dict [("resource", JValue.str "/host/2/")]]
    [.obj { toAnonStackInterface := AnonStackInterface.init "Host" sampleClient "",
            data := [("resource", JValue.str "/host/1/")] },
     .obj { toAnonStackInterface := AnonStackInterface.init "Host" sampleClient "",
            data := [("resource", JValue.str "/host/2/")] }]
    rfl (by decide) rfl
  exact ⟨h.1, h.2.2.2.1, h.2.2.2.2.1⟩

/-- C4: for every operation that unwinds a response envelope — interface
    GET, POST and LIST; object CREATE, GET, PUT and DELETE — a response
    mapping without the `data` key raises ValueError, and otherwise the
    value stored under `data` is returned by the unwinder.  (The object-op
    conjuncts carry the preconditions under which the call reaches the
    unwinder at all.) -/
theorem C4_envelope (fields : List (String × JValue)) (v : JValue)
    (iface : AnonStackInterface) (obj obj2 obj3 : AnonStackObject)
    (s ep : String) (id action : Option String) (params data : Option JValue)
    (headers : Option HeaderDict) :
    (dictGet fields "data" = none →
      unwind_result (.dict fields) = .error .valueError ∧
      (iface.GET (fun _ => .dict fields) id params action headers).2 = .error .valueError ∧
      (iface.POST (fun _ => .dict fields) data headers action).2 = .error .valueError ∧
      (iface.LIST (fun _ => .dict fields) params headers).2 = .error .valueError ∧
      (pyTruthyOpt (dictGet obj.data "resource") = false →
        (obj.CREATE (fun _ => .dict fields) headers).2 = .error .valueError) ∧
      (dictGet obj2.data "resource" = some (.str s) →
        (obj2.DELETE (fun _ => .dict fields) headers).2 = .error .valueError) ∧
      (obj3.get_endpoint action = .ok ep →
        (obj3.GET (fun _ => .dict fields) params action headers).2 = .error .valueError ∧
        (obj3.PUT (fun _ => .dict fields) data action headers).2 = .error .valueError)) ∧
    (dictGet fields "data" = some v → unwind_result (.dict fields) = .ok v) := by
  constructor
  · intro hmiss
    have hany : fields.any (fun p => p.1 == "data") = false := by
      rw [any_key_beq_eq_isSome, hmiss]
      rfl
    have hun : unwind_result (.dict fields) = .error .valueError := by
      simp [unwind_result, pyContains, hany, except_bind_ok]
    refine ⟨hun, ?_, ?_, ?_, ?_, ?_, ?_⟩
    · simp [AnonStackInterface.GET, hun, except_bind_err]
    · simp [AnonStackInterface.POST, hun]
    · simp [AnonStackInterface.LIST, AnonStackInterface.GET, hun, except_bind_err]
    · intro htr
      simp [AnonStackObject.CREATE, htr, hun]
    · intro hres
      simp [AnonStackObject.DELETE, hres, hun]
    · intro hep
      constructor
      · simp [AnonStackObject.GET, hep, hun]
      · simp [AnonStackObject.PUT, hep, hun]
  · intro hdata
    have hany : fields.any (fun p => p.1 == "data") = true := by
      rw [any_key_beq_eq_isSome, hdata]
      rfl
    simp [unwind_result, pyContains, hany, pySubscript, hdata, except_bind_ok]

/-- Witness for C4: the envelope `{"meta": {}}` (no `data` key) makes every
    unwinding operation fail with ValueError on concrete inputs, and
    `{"data": {"id": 1}}` unwinds to the stored value. -/
theorem C4_witness :
    unwind_result (.dict [("meta", JValue.dict [])]) = .error .valueError ∧
    (sampleInterface.GET (fun _ => .dict [("meta", JValue.dict [])])
        (some "1") none none none).2 = .error .valueError ∧
    (sampleInterface.POST (fun _ => .dict [("meta", JValue.dict [])])
        none none none).2 = .error .valueError ∧
    (sampleInterface.LIST (fun _ => .dict [("meta", JValue.dict [])])
        none none).2 = .error .valueError ∧
    (AnonStackObject.CREATE
        { toAnonStackInterface := sampleInterface, data := [("name", JValue.str "g")] }
        (fun _ => .dict [("meta", JValue.dict [])]) none).2 = .error .valueError ∧
    (AnonStackObject.DELETE
        { toAnonStackInterface := sampleInterface, data := [("resource", JValue.str "/group/1/")] }
        (fun _ => .dict [("meta", JValue.dict [])]) none).2 = .error .valueError ∧
    (AnonStackObject.GET
        { toAnonStackInterface := sampleInterface, data := [("resource", JValue.str "/group/1/")] }
        (fun _ => .dict [("meta", JValue.dict [])]) none none none).2 = .error .valueError ∧
    (AnonStackObject.PUT
        { toAnonStackInterface := sampleInterface, data := [("resource", JValue.str "/group/1/")] }
        (fun _ => .dict [("meta", JValue.dict [])]) none none none).2 = .error .valueError ∧
    unwind_result (.dict [("data", JValue.dict [("id", JValue.num 1)])]) =
      .ok (JValue.dict [("id", JValue.num 1)]) := by
  have h := C4_envelope [("meta", JValue.dict [])] (JValue.dict [("id", JValue.num 1)])
    sampleInterface
    { toAnonStackInterface := sampleInterface, data := [("name", JValue.str "g")] }
    { toAnonStackInterface := sampleInterface, data := [("resource", JValue.str "/group/1/")] }
    { toAnonStackInterface := sampleInterface, data := [("resource", JValue.str "/group/1/")] }
    "/group/1/" "/group/1/" (some "1") none none none none
  have h2 := C4_envelope [("data", JValue.dict [("id", JValue.num 1)])]
    (JValue.dict [("id", JValue.num 1)]) sampleInterface
    { toAnonStackInterface := sampleInterface, data := [("name", JValue.str "g")] }
    { toAnonStackInterface := sampleInterface, data := [("resource", JValue.str "/group/1/")] }
    { toAnonStackInterface := sampleInterface, data := [("resource", JValue.str "/group/1/")] }
    "/group/1/" "/group/1/" (some "1") none none none none
  obtain ⟨hu, hg, hp, hl, hc, hd, hgp⟩ := h.1 rfl
  exact ⟨hu, hg, hp, hl, hc rfl, hd rfl, (hgp rfl).1, (hgp rfl).2, h2.2 rfl⟩

/-- C5 fails as stated: `CREATE` tests the truthiness of the `resource`
    value (`if resource:`), not its presence.  An object that carries a
    `resource` field whose value is the empty string is not rejected —
    CREATE issues the POST. -/
theorem C5_counterexample :
    AnonStackObject.init "Group" sampleClient (JValue.dict [("resource", JValue.str "")]) =
      .ok c5obj ∧
    dictGet c5obj.data "resource" = some (JValue.str "") ∧
    (c5obj.CREATE (fun _ => JValue.dict [("data", JValue.dict [])]) none).1 =
      [⟨Verb.post, "v0.2/group/", some (JValue.dict [("resource", JValue.str "")]), none⟩] :=
  ⟨rfl, rfl, rfl⟩

/-- C5 (amended): CREATE on an object carrying a truthy `resource` value
    (for example any non-empty resource string) raises ValueError and issues
    no POST; on an object without a truthy `resource` it POSTs exactly the
    object's visible field mapping to the interface's versioned endpoint,
    and when the unwound response is a mapping it merges every returned
    field into the object (server values overwriting local ones) and
    returns the object. -/
theorem C5_create (self : AnonStackObject) (oracle : Oracle) (headers : Option HeaderDict) :
    (∀ r, dictGet self.data "resource" = some r → pyTruthy r = true →
      self.CREATE oracle headers = ([], .error .valueError)) ∧
    (pyTruthyOpt (dictGet self.data "resource") = false →
      (self.CREATE oracle headers).1 =
        [⟨Verb.post,
          versionedEndpointCore self.rest_client.api_version self.endpoint none none,
          some (.dict self.data), none⟩] ∧
      (∀ respFields : List (String × JValue),
        unwind_result (oracle ⟨Verb.post,
            versionedEndpointCore self.rest_client.api_version self.endpoint none none,
            some (.dict self.data), none⟩) = .ok (.dict respFields) →
        (self.CREATE oracle headers).2 =
          .ok { self with data := dictMerge self.data respFields } ∧
        ((respFields.map Prod.fst).Nodup →
          ∀ k w, (k, w) ∈ respFields →
            dictGet (dictMerge self.data respFields) k = some w))) := by
  constructor
  · intro r hr htr
    simp [AnonStackObject.CREATE, pyTruthyOpt, hr, htr]
  · intro h
    refine ⟨by simp [AnonStackObject.CREATE, h, AnonStackInterface.versioned_endpoint], ?_⟩
    intro respFields hresp
    constructor
    · simp [AnonStackObject.CREATE, h, AnonStackInterface.versioned_endpoint, hresp]
    · intro hnd k w hmem
      exact dictGet_dictMerge_mem _ _ _ _ hnd hmem

/-- Witness for C5: a fresh object POSTs its mapping to `v0.2/group/` and
    merges the server reply; an object with resource "/group/1/" is
    rejected with no call. -/
theorem C5_witness :
    (AnonStackObject.CREATE
        { toAnonStackInterface := AnonStackInterface.init "Group" sampleClient "",
          data := [("name", JValue.str "g")] }
        (fun _ => JValue.dict
          [("data", JValue.dict [("name", JValue.str "srv"), ("id", JValue.num 1)])])
        none).1 =
      [⟨Verb.post, versionedEndpointCore "0.2" "group/" none none,
        some (JValue.dict [("name", JValue.str "g")]), none⟩] ∧
    (AnonStackObject.CREATE
        { toAnonStackInterface := AnonStackInterface.init "Group" sampleClient "",
          data := [("name", JValue.str "g")] }
        (fun _ => JValue.dict
          [("data", JValue.dict [("name", JValue.str "srv"), ("id", JValue.num 1)])])
        none).2 =
      .ok { toAnonStackInterface := AnonStackInterface.init "Group" sampleClient "",
            data := dictMerge [("name", JValue.str "g")]
              [("name", JValue.str "srv"), ("id", JValue.num 1)] } ∧
    dictGet (dictMerge [("name", JValue.str "g")]
        [("name", JValue.str "srv"), ("id", JValue.num 1)]) "name" =
      some (JValue.str "srv") ∧
    AnonStackObject.CREATE
        { toAnonStackInterface := AnonStackInterface.init "Group" sampleClient "",
          data := [("resource", JValue.str "/group/1/")] }
        (fun _ => JValue.dict [("data", JValue.dict [])]) none =
      ([], .error .valueError) := by
  have h := C5_create
    { toAnonStackInterface := AnonStackInterface.init "Group" sampleClient "",
      data := [("name", JValue.str "g")] }
    (fun _ => JValue.dict
      [("data", JValue.dict [("name", JValue.str "srv"), ("id", JValue.num 1)])])
    none
  obtain ⟨htrace, hrest⟩ := h.2 rfl
  obtain ⟨hmerge, hlook⟩ := hrest [("name", JValue.str "srv"), ("id", JValue.num 1)] rfl
  refine ⟨htrace, hmerge, hlook (by decide) "name" (JValue.str "srv") (by simp), ?_⟩
  exact (C5_create
    { toAnonStackInterface := AnonStackInterface.init "Group" sampleClient "",
      data := [("resource", JValue.str "/group/1/")] }
    (fun _ => JValue.dict [("data", JValue.dict [])]) none).1
    (JValue.str "/group/1/") rfl rfl

/-- C6: DELETE on an object with no `resource` entry raises ValueError and
    issues no network call; on an object whose `resource` entry is a
    resource path it issues exactly one DELETE against that path, and when
    the unwound response is a mapping it merges every returned field into
    the object and returns the object. -/
theorem C6_delete (self : AnonStackObject) (oracle : Oracle) (headers : Option HeaderDict) :
    (dictGet self.data "resource" = none →
      self.DELETE oracle headers = ([], .error .valueError)) ∧
    (∀ s, dictGet self.data "resource" = some (.str s) →
      (self.DELETE oracle headers).1 = [⟨Verb.delete, s, none, none⟩] ∧
      (∀ respFields : List (String × JValue),
        unwind_result (oracle ⟨Verb.delete, s, none, none⟩) = .ok (.dict respFields) →
        (self.DELETE oracle headers).2 =
          .ok { self with data := dictMerge self.data respFields } ∧
        ((respFields.map Prod.fst).Nodup →
          ∀ k w, (k, w) ∈ respFields →
            dictGet (dictMerge self.data respFields) k = some w))) := by
  constructor
  · intro h
    simp [AnonStackObject.DELETE, h]
  · intro s hs
    refine ⟨by simp [AnonStackObject.DELETE, hs], ?_⟩
    intro respFields hresp
    constructor
    · simp [AnonStackObject.DELETE, hs, hresp]
    · intro hnd k w hmem
      exact dictGet_dictMerge_mem _ _ _ _ hnd hmem

/-- Witness for C6: deleting the wrapped widget issues DELETE /widget/42/
    and merges the reply; an object with no resource raises with no call. -/
theorem C6_witness :
    AnonStackObject.DELETE
        { toAnonStackInterface := AnonStackInterface.init "Group" sampleClient "",
          data := [("name", JValue.str "g")] }
        (fun _ => JValue.dict [("data", JValue.dict [])]) none =
      ([], .error .valueError) ∧
    (AnonStackObject.DELETE
        { toAnonStackInterface := AnonStackInterface.init "Widget" sampleClient "",
          data := [("resource", JValue.str "/widget/42/")] }
        (fun _ => JValue.dict [("data", JValue.dict [("deleted", JValue.bool true)])])
        none).1 =
      [⟨Verb.delete, "/widget/42/", none, none⟩] ∧
    (AnonStackObject.DELETE
        { toAnonStackInterface := AnonStackInterface.init "Widget" sampleClient "",
          data := [("resource", JValue.str "/widget/42/")] }
        (fun _ => JValue.dict [("data", JValue.dict [("deleted", JValue.bool true)])])
        none).2 =
      .ok { toAnonStackInterface := AnonStackInterface.init "Widget" sampleClient "",
            data := dictMerge [("resource", JValue.str "/widget/42/")]
              [("deleted", JValue.bool true)] } := by
  have h := C6_delete
    { toAnonStackInterface := AnonStackInterface.init "Widget" sampleClient "",
      data := [("resource", JValue.str "/widget/42/")] }
    (fun _ => JValue.dict [("data", JValue.dict [("deleted", JValue.bool true)])]) none
  obtain ⟨htrace, hrest⟩ := h.2 "/widget/42/" rfl
  refine ⟨?_, htrace, (hrest [("deleted", JValue.bool true)] rfl).1⟩
  exact (C6_delete
    { toAnonStackInterface := AnonStackInterface.init "Group" sampleClient "",
      data := [("name", JValue.str "g")] }
    (fun _ => JValue.dict [("data", JValue.dict [])]) none).1 rfl

theorem heapSetItem_cons_succ (a : HeaderDict) (t : HeapStore) (n : Nat) (k v : String) :
    heapSetItem (a :: t) (n + 1) k v = a :: heapSetItem t n k v := rfl

theorem heapGet_setItem_ne (st : HeapStore) (r j : Nat) (k v : String) (h : j ≠ r) :
    heapGet (heapSetItem st r k v) j = heapGet st j := by
  induction st generalizing r j with
  | nil => rfl
  | cons a t ih =>
    cases r with
    | zero =>
      cases j with
      | zero => exact absurd rfl h
      | succ m => rfl
    | succ n =>
      cases j with
      | zero => rfl
      | succ m =>
        rw [heapSetItem_cons_succ]
        show heapGet (heapSetItem t n k v) m = heapGet t m
        exact ih n m (fun he => h (by rw [he]))

theorem heapGet_setItem_self (st : HeapStore) (r : Nat) (k v : String) (h : r < st.length) :
    heapGet (heapSetItem st r k v) r = dictSet (heapGet st r) k v := by
  induction st generalizing r with
  | nil => cases h
  | cons a t ih =>
    cases r with
    | zero => rfl
    | succ n =>
      rw [heapSetItem_cons_succ]
      show heapGet (heapSetItem t n k v) n = dictSet (heapGet t n) k v
      exact ih n (Nat.lt_of_succ_lt_succ h)

theorem heapSetItem_length (st : HeapStore) (r : Nat) (k v : String) :
    (heapSetItem st r k v).length = st.length := by
  simp [heapSetItem]

theorem heapGet_append_lt (st : HeapStore) (d : HeaderDict) (j : Nat) (h : j < st.length) :
    heapGet (st ++ [d]) j = heapGet st j := by
  induction st generalizing j with
  | nil => cases h
  | cons a t ih =>
    cases j with
    | zero => rfl
    | succ m =>
      show heapGet (t ++ [d]) m = heapGet t m
      exact ih m (Nat.lt_of_succ_lt_succ h)

theorem heapGet_append_self (st : HeapStore) (d : HeaderDict) :
    heapGet (st ++ [d]) st.length = d := by
  induction st with
  | nil => rfl
  | cons a t ih =>
    show heapGet (t ++ [d]) t.length = d
    exact ih

theorem heapGet_oob (st : HeapStore) (e : Nat) (h : st.length ≤ e) : heapGet st e = [] := by
  induction st generalizing e with
  | nil => rfl
  | cons a t ih =>
    cases e with
    | zero => exact absurd h (Nat.not_succ_le_zero _)
    | succ m => exact ih m (Nat.le_of_succ_le_succ h)

theorem heapGet_append_nil (st : HeapStore) (e : Nat) :
    heapGet (st ++ [[]]) e = heapGet st e := by
  rcases Nat.lt_trichotomy e st.length with h | h | h
  · exact heapGet_append_lt _ _ _ h
  · subst h
    rw [heapGet_append_self, heapGet_oob st _ (Nat.le_refl _)]
  · rw [heapGet_oob st _ (Nat.le_of_lt h),
      heapGet_oob (st ++ [[]]) _ (by simpa using h)]

theorem heapGet_append2_lt (st : HeapStore) (d1 d2 : HeaderDict) (j : Nat)
    (h : j < st.length) : heapGet (st ++ [d1, d2]) j = heapGet st j := by
  have hsplit : st ++ [d1, d2] = (st ++ [d1]) ++ [d2] := by simp
  have h2 : j < (st ++ [d1]).length := by
    simp only [List.length_append, List.length_cons, List.length_nil]
    omega
  rw [hsplit, heapGet_append_lt _ _ _ h2, heapGet_append_lt _ _ _ h]

theorem heapGet_append2_self (st : HeapStore) (d1 d2 : HeaderDict) :
    heapGet (st ++ [d1, d2]) (st.length + 1) = d2 := by
  have hsplit : st ++ [d1, d2] = (st ++ [d1]) ++ [d2] := by simp
  have h2 : (st ++ [d1]).length = st.length + 1 := by simp
  rw [hsplit, ← h2, heapGet_append_self]

theorem merge_headers_frame (cfg : RestApi) (st0 : HeapStore) (extra : Option Nat)
    (is_post : Bool) (j : Nat) (hj : j < st0.length) :
    heapGet (RestApi.merge_headers cfg st0 extra is_post).2 j = heapGet st0 j := by
  have h1 : j ≠ st0.length := Nat.ne_of_lt hj
  have h2 : j ≠ st0.length + 1 := Nat.ne_of_lt (Nat.lt_succ_of_lt hj)
  have h3 : j < (st0 ++ [[]]).length := by
    simp only [List.length_append, List.length_cons, List.length_nil]
    omega
  obtain ⟨uri, ver, akey, un, pw, uag⟩ := cfg
  rcases extra with _ | e <;>
    rcases akey with _ | k <;>
      rcases uag with _ | ua <;>
        cases is_post <;>
          simp only [RestApi.merge_headers, heapAlloc, List.length_append,
            List.length_cons, List.length_nil] <;>
            split_ifs <;>
              simp [heapGet_setItem_ne, h1, h2, heapGet_append_lt, heapGet_append2_lt, hj, h3]

theorem merge_headers_contents (cfg : RestApi) (st0 : HeapStore) (extra : Option Nat)
    (is_post : Bool) :
    heapGet (RestApi.merge_headers cfg st0 extra is_post).2
        (RestApi.merge_headers cfg st0 extra is_post).1 =
      mergeHeadersContents cfg
        (match extra with
         | none => []
         | some e => heapGet st0 e) is_post := by
  have hbase : ∀ e : Nat, heapGet (st0 ++ [[]]) e = heapGet st0 e := heapGet_append_nil st0
  have hoob : heapGet st0 st0.length = [] := heapGet_oob st0 _ (Nat.le_refl _)
  obtain ⟨uri, ver, akey, un, pw, uag⟩ := cfg
  rcases extra with _ | e <;>
    rcases akey with _ | k <;>
      rcases uag with _ | ua <;>
        cases is_post <;>
          simp only [RestApi.merge_headers, heapAlloc, mergeHeadersContents] <;>
            split_ifs <;>
              simp [heapGet_setItem_self, heapSetItem_length, List.length_append,
                heapGet_append_self, heapGet_append2_self, hbase, hoob,
                Nat.lt_succ_self, Nat.lt_succ_of_lt]

theorem mergeHeadersContents_apikey_some (cfg : RestApi) (base : HeaderDict) (is_post : Bool)
    (k : String) (hk : cfg.apikey = some k) (hne : k.data.isEmpty = false) :
    dictGet (mergeHeadersContents cfg base is_post) "x-stackdriver-apikey" = some k := by
  have h1 : ("x-stackdriver-version" : String) ≠ "x-stackdriver-apikey" := by decide
  have h2 : ("accept" : String) ≠ "x-stackdriver-apikey" := by decide
  have h3 : ("content-type" : String) ≠ "x-stackdriver-apikey" := by decide
  have h4 : ("user-agent" : String) ≠ "x-stackdriver-apikey" := by decide
  rcases hu : cfg.useragent with _ | ua <;> cases is_post <;>
    simp [mergeHeadersContents, hk, hu, hne, dictGet_dictSet_ne, dictGet_dictSet_self,
      h1, h2, h3, h4]
  all_goals
    split_ifs <;>
      simp [dictGet_dictSet_ne, dictGet_dictSet_self, h1, h2, h3, h4]

theorem mergeHeadersContents_apikey_none (cfg : RestApi) (base : HeaderDict) (is_post : Bool)
    (hak : cfg.apikey = none ∨ cfg.apikey = some "")
    (hbs : dictGet base "x-stackdriver-apikey" = none) :
    dictGet (mergeHeadersContents cfg base is_post) "x-stackdriver-apikey" = none := by
  have h1 : ("x-stackdriver-version" : String) ≠ "x-stackdriver-apikey" := by decide
  have h2 : ("accept" : String) ≠ "x-stackdriver-apikey" := by decide
  have h3 : ("content-type" : String) ≠ "x-stackdriver-apikey" := by decide
  have h4 : ("user-agent" : String) ≠ "x-stackdriver-apikey" := by decide
  rcases hak with hak | hak <;>
    rcases hu : cfg.useragent with _ | ua <;> cases is_post <;>
      simp [mergeHeadersContents, hak, hu, hbs, dictGet_dictSet_ne, h1, h2, h3, h4]
  all_goals
    split_ifs <;>
      simp [dictGet_dictSet_ne, hbs, h1, h2, h3, h4]

/-- C9 fails as stated: with no configured api key, a caller-supplied
    headers dict that itself contains `x-stackdriver-apikey` is copied into
    the produced headers, so the produced headers do contain an api-key
    entry even though no key is configured. -/
theorem C9_counterexample :
    c9cfg.apikey = none ∧
    dictGet (heapGet (RestApi.merge_headers c9cfg
          [[("x-stackdriver-apikey", "callerkey")]] (some 0) false).2
        (RestApi.merge_headers c9cfg [[("x-stackdriver-apikey", "callerkey")]]
          (some 0) false).1) "x-stackdriver-apikey" = some "callerkey" := ⟨rfl, rfl⟩

/-- C9 (amended): for every verb call, header merging never mutates the
    caller-supplied headers dict (its heap cell is unchanged); the produced
    headers contain no api-key entry at all when no truthy api key is
    configured and the caller's headers carry none themselves; and they
    contain the configured key whenever a non-empty one is configured. -/
theorem C9_headers (cfg : RestApi) (st0 : HeapStore) (extra : Option Nat) (is_post : Bool) :
    (∀ e, extra = some e → e < st0.length →
      heapGet (RestApi.merge_headers cfg st0 extra is_post).2 e = heapGet st0 e) ∧
    (∀ k, cfg.apikey = some k → k.data.isEmpty = false →
      dictGet (heapGet (RestApi.merge_headers cfg st0 extra is_post).2
          (RestApi.merge_headers cfg st0 extra is_post).1) "x-stackdriver-apikey" =
        some k) ∧
    ((cfg.apikey = none ∨ cfg.apikey = some "") →
      dictGet (match extra with
               | none => ([] : HeaderDict)
               | some e => heapGet st0 e) "x-stackdriver-apikey" = none →
      dictGet (heapGet (RestApi.merge_headers cfg st0 extra is_post).2
          (RestApi.merge_headers cfg st0 extra is_post).1) "x-stackdriver-apikey" =
        none) := by
  refine ⟨?_, ?_, ?_⟩
  · intro e he _
    subst he
    exact merge_headers_frame cfg st0 _ is_post e (by assumption)
  · intro k hk hne
    rw [merge_headers_contents]
    exact mergeHeadersContents_apikey_some cfg _ is_post k hk hne
  · intro hak hbs
    rw [merge_headers_contents]
    exact mergeHeadersContents_apikey_none cfg _ is_post hak hbs

/-- Witness for C9: a caller dict is untouched by the merge, the configured
    key "key" appears in the produced headers, and with no configured key
    and clean caller headers no api-key entry is produced. -/
theorem C9_witness :
    heapGet (RestApi.merge_headers sampleClient [[("other", "1")]] (some 0) false).2 0 =
      [("other", "1")] ∧
    dictGet (heapGet (RestApi.merge_headers sampleClient [[("other", "1")]] (some 0) false).2
        (RestApi.merge_headers sampleClient [[("other", "1")]] (some 0) false).1)
      "x-stackdriver-apikey" = some "key" ∧
    dictGet (heapGet (RestApi.merge_headers c9cfg [] none true).2
        (RestApi.merge_headers c9cfg [] none true).1) "x-stackdriver-apikey" = none := by
  refine ⟨?_, ?_, ?_⟩
  · exact (C9_headers sampleClient [[("other", "1")]] (some 0) false).1 0 rfl
      (by decide)
  · exact (C9_headers sampleClient [[("other", "1")]] (some 0) false).2.1 "key" rfl rfl
  · exact (C9_headers c9cfg [] none true).2.2 (Or.inl rfl) rfl
